import Mathlib

/-!
Verification of the `rust-icmp` crate's socket layer.

The public facade `IcmpSocket` (src/socket.rs) is embedded directly from
the source.  The platform layer it delegates to (`sys::Socket` and the
timeout-configuration routines `compat::set_timeout` / `compat::timeout`)
is not part of the source tree; those operations are modelled from the
specification (sections 4.1 and 4.2).  Stateful operations are embedded as
explicit state passing: a setter maps the platform-socket state to the new
state paired with the call's result.
-/

namespace Icmp

/-- An IP address, either IPv4 or IPv6.  The numeric payload stands for the
raw address bytes; only the version split matters to this layer. -/
inductive IpAddr where
  | v4 (a : Nat)
  | v6 (a : Nat)
deriving DecidableEq, Repr

/-- The address family of a socket, fixed at connect time. -/
inductive Family where
  | v4
  | v6
deriving DecidableEq, Repr

/-- The family of an address: IPv4 addresses map to the v4 family, IPv6 to v6. -/
def IpAddr.family : IpAddr → Family
  | .v4 _ => .v4
  | .v6 _ => .v6

/-- The error taxonomy of the system (spec section 7): permission denial,
unsupported address family, invalid argument, timeout / would-block, and
other transport failures. -/
inductive IoErrorKind where
  | permissionDenied
  | unsupportedFamily
  | invalidInput
  | timedOut
  | other
deriving DecidableEq, Repr

/-- A duration, as seconds plus a sub-second nanosecond remainder
(the shape of `std::time::Duration`). -/
structure Duration where
  secs : Nat
  nanos : Nat
deriving DecidableEq, Repr

/-- The OS timeout encoding: seconds plus microseconds (a `timeval`).
The all-zero value encodes "no timeout". -/
structure Timeval where
  sec : Nat
  usec : Nat
deriving DecidableEq, Repr

/-- The `libc::SO_RCVTIMEO` option constant (read-direction timeout). -/
def SO_RCVTIMEO : Nat := 20

/-- The `libc::SO_SNDTIMEO` option constant (write-direction timeout). -/
def SO_SNDTIMEO : Nat := 21

/-- The raw-socket protocol number for ICMPv4 (`IPPROTO_ICMP`). -/
def IPPROTO_ICMP : Nat := 1

/-- The raw-socket protocol number for ICMPv6 (`IPPROTO_ICMPV6`). -/
def IPPROTO_ICMPV6 : Nat := 58

/-- Protocol-number selection by address family: ICMPv4 for IPv4,
ICMPv6 for IPv6. -/
def icmpProto : Family → Nat
  | .v4 => IPPROTO_ICMP
  | .v6 => IPPROTO_ICMPV6

/-- Modelled from the spec: the platform-socket state behind the native
handle.  `sys::Socket` is not in the source tree; per spec section 3 it
remembers the address family (derived once, at connect time) and the
destination, and the OS keeps the option values (read/write timeouts as
timevals, TTL, broadcast flag, QoS byte) attached to the handle. -/
structure Socket where
  family : Family
  dest : IpAddr
  proto : Nat
  rcvTimeo : Timeval
  sndTimeo : Timeval
  ttlVal : Nat
  broadcastVal : Bool
  qosVal : Fin 256
deriving DecidableEq, Repr

/-- Modelled from the spec: the OS environment seen by `sys::Socket::connect`,
which is not in the source tree.  It records whether the caller holds the
raw-socket capability and which address families the build/OS supports
(spec sections 4.1, 6 and 7). -/
structure OsEnv where
  rawAllowed : Bool
  v4Supported : Bool
  v6Supported : Bool
deriving DecidableEq, Repr

/-- Whether the environment supports raw sockets of the given family. -/
def OsEnv.supports (env : OsEnv) : Family → Bool
  | .v4 => env.v4Supported
  | .v6 => env.v6Supported

/-- Modelled from the spec: `sys::Socket::connect` is not in the source
tree.  Per spec section 4.1 it selects the raw-socket protocol number for
ICMP appropriate to the family of `addr`, opens a raw socket, and connects
it; it fails with an unsupported-family error when the family cannot be
raw-socketed in this build, and with a permission error when the caller
lacks the raw-socket capability.  Option values start at OS defaults. -/
def Socket.connect (env : OsEnv) (addr : IpAddr) : Except IoErrorKind Socket :=
  let fam := addr.family
  if env.supports fam then
    if env.rawAllowed then
      .ok { family := fam
            dest := addr
            proto := icmpProto fam
            rcvTimeo := ⟨0, 0⟩
            sndTimeo := ⟨0, 0⟩
            ttlVal := 64
            broadcastVal := false
            qosVal := 0 }
    else
      .error .permissionDenied
  else
    .error .unsupportedFamily

/-- An incoming datagram as the OS delivers it: payload bytes and the raw
(undecoded) source address. -/
structure Packet where
  bytes : List Nat
  src : Nat
deriving DecidableEq, Repr

/-- Reconstruction of a source address from its raw OS form, according to
the socket's fixed address family (spec section 4.1, `recv_from`). -/
def decodeAddr : Family → Nat → IpAddr
  | .v4, n => .v4 n
  | .v6, n => .v6 n

/-- Modelled from the spec: `sys::Socket::send` is not in the source tree.
It writes the buffer to the connected peer and returns the byte count
(spec section 4.1); transport failures come from the OS and are outside
the state modelled here. -/
def Socket.send (_s : Socket) (buf : List Nat) : Except IoErrorKind Nat :=
  .ok buf.length

/-- Modelled from the spec: `sys::Socket::recv` is not in the source tree.
It reads into a buffer of the given length from the connected peer; when
no data arrives within the read timeout it returns a timeout-class error
(spec section 4.1).  `net` is the datagram the network delivers, if any. -/
def Socket.recv (_s : Socket) (net : Option Packet) (buflen : Nat) :
    Except IoErrorKind Nat :=
  match net with
  | none => .error .timedOut
  | some p => .ok (min p.bytes.length buflen)

/-- Modelled from the spec: `sys::Socket::recv_from` is not in the source
tree.  Like `recv` but also decodes and returns the sender's address,
reconstructed according to the socket's fixed address family
(spec section 4.1). -/
def Socket.recv_from (s : Socket) (net : Option Packet) (buflen : Nat) :
    Except IoErrorKind (Nat × IpAddr) :=
  match net with
  | none => .error .timedOut
  | some p => .ok (min p.bytes.length buflen, decodeAddr s.family p.src)

/-- Modelled from the spec: `sys::Socket::set_ttl` is not in the source
tree.  The TTL option accepts the 0–255 range; out-of-range values fail at
the OS level (spec section 4.1). -/
def Socket.set_ttl (s : Socket) (ttl : Nat) : Socket × Except IoErrorKind Unit :=
  if ttl ≤ 255 then ({ s with ttlVal := ttl }, .ok ())
  else (s, .error .invalidInput)

/-- Modelled from the spec: `sys::Socket::ttl` is not in the source tree.
It reads the OS's authoritative TTL value (spec sections 3 and 4.1). -/
def Socket.ttl (s : Socket) : Except IoErrorKind Nat :=
  .ok s.ttlVal

/-- Modelled from the spec: `sys::Socket::set_broadcast` is not in the
source tree.  It enables or disables targeting broadcast addresses
(spec section 4.1). -/
def Socket.set_broadcast (s : Socket) (broadcast : Bool) :
    Socket × Except IoErrorKind Unit :=
  ({ s with broadcastVal := broadcast }, .ok ())

/-- Modelled from the spec: `sys::Socket::broadcast` is not in the source
tree.  It reads the broadcast flag (spec section 4.1). -/
def Socket.broadcast (s : Socket) : Except IoErrorKind Bool :=
  .ok s.broadcastVal

/-- Modelled from the spec: `sys::Socket::set_qos` is not in the source
tree.  It sets the differentiated-services / traffic-class byte; the
public signature (src/socket.rs) fixes the argument type to `u8`,
embedded here as `Fin 256` (spec section 4.1). -/
def Socket.set_qos (s : Socket) (qos : Fin 256) : Socket × Except IoErrorKind Unit :=
  ({ s with qosVal := qos }, .ok ())

/-- Modelled from the spec: `sys::Socket::qos` is not in the source tree.
It reads the traffic-class byte; the public signature returns `u8`
(spec section 4.1). -/
def Socket.qos (s : Socket) : Except IoErrorKind (Fin 256) :=
  .ok s.qosVal

/-- The timeval stored for a given option constant (read or write
direction). -/
def getTimeo (s : Socket) (opt : Nat) : Timeval :=
  if opt = SO_RCVTIMEO then s.rcvTimeo
  else if opt = SO_SNDTIMEO then s.sndTimeo
  else ⟨0, 0⟩

/-- Update of the timeval stored for a given option constant. -/
def setTimeo (s : Socket) (opt : Nat) (tv : Timeval) : Socket :=
  if opt = SO_RCVTIMEO then { s with rcvTimeo := tv }
  else if opt = SO_SNDTIMEO then { s with sndTimeo := tv }
  else s

/-- Conversion of a nonzero duration to the OS timeout encoding: seconds
plus the sub-second remainder truncated to microseconds.  A nonzero
duration below the OS's minimum representable unit is rounded up to that
unit, since per spec section 4.2 a nonzero timeout must never be silently
converted into the all-zero "no timeout" encoding. -/
def durToTimeval (d : Duration) : Timeval :=
  let usec := d.nanos / 1000
  if d.secs = 0 ∧ usec = 0 then ⟨0, 1⟩ else ⟨d.secs, usec⟩

/-- Modelled from the spec: `compat::set_timeout` is not in the source
tree.  Per spec section 4.2: `none` disables the timeout (all-zero
encoding, infinite blocking); a zero duration fails immediately with an
invalid-input error and changes nothing; otherwise the duration is
converted to the OS encoding and applied to the direction named by the
option constant. -/
def set_timeout (s : Socket) (dur : Option Duration) (opt : Nat) :
    Socket × Except IoErrorKind Unit :=
  match dur with
  | none => (setTimeo s opt ⟨0, 0⟩, .ok ())
  | some d =>
    if d.secs = 0 ∧ d.nanos = 0 then (s, .error .invalidInput)
    else (setTimeo s opt (durToTimeval d), .ok ())

/-- Modelled from the spec: `compat::timeout` is not in the source tree.
Per spec section 4.2 it reads back the OS timeout for the direction named
by the option constant; an all-zero duration is interpreted as "no
timeout" (`none`). -/
def timeout (s : Socket) (opt : Nat) : Except IoErrorKind (Option Duration) :=
  let tv := getTimeo s opt
  if tv.sec = 0 ∧ tv.usec = 0 then .ok none
  else .ok (some ⟨tv.sec, tv.usec * 1000⟩)

/-- A duration rounded to the OS's minimum representable timeout unit
(one microsecond): the sub-second part is truncated to whole microseconds,
except that a nonzero duration under one microsecond rounds up to one. -/
def roundToMicros (d : Duration) : Duration :=
  if d.secs = 0 ∧ d.nanos < 1000 then ⟨0, 1000⟩
  else ⟨d.secs, d.nanos / 1000 * 1000⟩

/-- The public facade (src/socket.rs): a struct holding exactly one
platform socket. -/
structure IcmpSocket where
  inner : Socket
deriving DecidableEq, Repr

/-- `AsInner::as_inner` for `IcmpSocket` (src/socket.rs:173-177): exposes
the platform socket. -/
def IcmpSocket.as_inner (s : IcmpSocket) : Socket :=
  s.inner

/-- `IcmpSocket::connect` (src/socket.rs:48-54): delegates to
`Socket::connect` and wraps the result. -/
def IcmpSocket.connect (env : OsEnv) (addr : IpAddr) : Except IoErrorKind IcmpSocket :=
  (Socket.connect env addr).map (fun inner => { inner := inner })

/-- `IcmpSocket::recv` (src/socket.rs:57-59): delegates to the platform
socket. -/
def IcmpSocket.recv (s : IcmpSocket) (net : Option Packet) (buflen : Nat) :
    Except IoErrorKind Nat :=
  s.inner.recv net buflen

/-- `IcmpSocket::recv_from` (src/socket.rs:63-65): delegates to the
platform socket. -/
def IcmpSocket.recv_from (s : IcmpSocket) (net : Option Packet) (buflen : Nat) :
    Except IoErrorKind (Nat × IpAddr) :=
  s.inner.recv_from net buflen

/-- `IcmpSocket::send` (src/socket.rs:71-73): delegates to the platform
socket. -/
def IcmpSocket.send (s : IcmpSocket) (buf : List Nat) : Except IoErrorKind Nat :=
  s.inner.send buf

/-- `IcmpSocket::set_read_timeout` (src/socket.rs:86-88): calls
`set_timeout(self.as_inner(), dur, libc::SO_RCVTIMEO)`. -/
def IcmpSocket.set_read_timeout (s : IcmpSocket) (dur : Option Duration) :
    IcmpSocket × Except IoErrorKind Unit :=
  let r := set_timeout s.as_inner dur SO_RCVTIMEO
  ({ inner := r.1 }, r.2)

/-- `IcmpSocket::set_write_timeout` (src/socket.rs:101-103): calls
`set_timeout(self.as_inner(), dur, libc::SO_SNDTIMEO)`. -/
def IcmpSocket.set_write_timeout (s : IcmpSocket) (dur : Option Duration) :
    IcmpSocket × Except IoErrorKind Unit :=
  let r := set_timeout s.as_inner dur SO_SNDTIMEO
  ({ inner := r.1 }, r.2)

/-- `IcmpSocket::read_timeout` (src/socket.rs:108-110): calls
`timeout(self.as_inner(), libc::SO_RCVTIMEO)`. -/
def IcmpSocket.read_timeout (s : IcmpSocket) : Except IoErrorKind (Option Duration) :=
  timeout s.as_inner SO_RCVTIMEO

/-- `IcmpSocket::write_timeout` (src/socket.rs:115-117): calls
`timeout(self.as_inner(), libc::SO_SNDTIMEO)`. -/
def IcmpSocket.write_timeout (s : IcmpSocket) : Except IoErrorKind (Option Duration) :=
  timeout s.as_inner SO_SNDTIMEO

/-- `IcmpSocket::set_ttl` (src/socket.rs:123-125): delegates to the
platform socket; the argument is a `u32`, embedded as a natural number
below 2^32. -/
def IcmpSocket.set_ttl (s : IcmpSocket) (ttl : Nat) :
    IcmpSocket × Except IoErrorKind Unit :=
  let r := s.inner.set_ttl ttl
  ({ inner := r.1 }, r.2)

/-- `IcmpSocket::ttl` (src/socket.rs:132-134): delegates to the platform
socket. -/
def IcmpSocket.ttl (s : IcmpSocket) : Except IoErrorKind Nat :=
  s.inner.ttl

/-- `IcmpSocket::set_broadcast` (src/socket.rs:139-141): delegates to the
platform socket. -/
def IcmpSocket.set_broadcast (s : IcmpSocket) (broadcast : Bool) :
    IcmpSocket × Except IoErrorKind Unit :=
  let r := s.inner.set_broadcast broadcast
  ({ inner := r.1 }, r.2)

/-- `IcmpSocket::broadcast` (src/socket.rs:149-151): delegates to the
platform socket. -/
def IcmpSocket.broadcast (s : IcmpSocket) : Except IoErrorKind Bool :=
  s.inner.broadcast

/-- `IcmpSocket::set_qos` (src/socket.rs:157-159): delegates to the
platform socket; the argument is a `u8`, embedded as `Fin 256`. -/
def IcmpSocket.set_qos (s : IcmpSocket) (qos : Fin 256) :
    IcmpSocket × Except IoErrorKind Unit :=
  let r := s.inner.set_qos qos
  ({ inner := r.1 }, r.2)

/-- `IcmpSocket::qos` (src/socket.rs:167-169): delegates to the platform
socket. -/
def IcmpSocket.qos (s : IcmpSocket) : Except IoErrorKind (Fin 256) :=
  s.inner.qos

/-- The public operations available on an already-connected `IcmpSocket`
(src/socket.rs:45-171).  There is no reconnect or rebind: `connect` is the
only constructor and does not appear here. -/
inductive Op where
  | send (buf : List Nat)
  | recv (net : Option Packet) (buflen : Nat)
  | recvFrom (net : Option Packet) (buflen : Nat)
  | setReadTimeout (dur : Option Duration)
  | setWriteTimeout (dur : Option Duration)
  | readTimeout
  | writeTimeout
  | setTtl (ttl : Nat)
  | getTtl
  | setBroadcast (broadcast : Bool)
  | getBroadcast
  | setQos (qos : Fin 256)
  | getQos
deriving DecidableEq, Repr

/-- The socket state after one public operation: setters yield their
updated state; send, recv and the getters are non-mutating in the
embedding and leave the state as it was. -/
def IcmpSocket.applyOp (s : IcmpSocket) : Op → IcmpSocket
  | .send _ => s
  | .recv _ _ => s
  | .recvFrom _ _ => s
  | .setReadTimeout dur => (s.set_read_timeout dur).1
  | .setWriteTimeout dur => (s.set_write_timeout dur).1
  | .readTimeout => s
  | .writeTimeout => s
  | .setTtl t => (s.set_ttl t).1
  | .getTtl => s
  | .setBroadcast b => (s.set_broadcast b).1
  | .getBroadcast => s
  | .setQos q => (s.set_qos q).1
  | .getQos => s

/-! ### Helper lemmas -/

theorem setTimeo_family (x : Socket) (opt : Nat) (tv : Timeval) :
    (setTimeo x opt tv).family = x.family := by
  unfold setTimeo
  split_ifs <;> rfl

theorem setTimeo_dest (x : Socket) (opt : Nat) (tv : Timeval) :
    (setTimeo x opt tv).dest = x.dest := by
  unfold setTimeo
  split_ifs <;> rfl

theorem set_timeout_family (x : Socket) (dur : Option Duration) (opt : Nat) :
    (set_timeout x dur opt).1.family = x.family := by
  cases dur with
  | none => exact setTimeo_family x opt ⟨0, 0⟩
  | some d =>
    simp only [set_timeout]
    split_ifs with h
    · rfl
    · exact setTimeo_family x opt (durToTimeval d)

theorem set_timeout_dest (x : Socket) (dur : Option Duration) (opt : Nat) :
    (set_timeout x dur opt).1.dest = x.dest := by
  cases dur with
  | none => exact setTimeo_dest x opt ⟨0, 0⟩
  | some d =>
    simp only [set_timeout]
    split_ifs with h
    · rfl
    · exact setTimeo_dest x opt (durToTimeval d)

theorem set_timeout_rcv_sndTimeo (x : Socket) (dur : Option Duration) :
    (set_timeout x dur SO_RCVTIMEO).1.sndTimeo = x.sndTimeo := by
  cases dur with
  | none => rfl
  | some d =>
    simp only [set_timeout]
    split_ifs with h <;> rfl

theorem set_timeout_snd_rcvTimeo (x : Socket) (dur : Option Duration) :
    (set_timeout x dur SO_SNDTIMEO).1.rcvTimeo = x.rcvTimeo := by
  cases dur with
  | none => rfl
  | some d =>
    simp only [set_timeout]
    split_ifs with h <;> rfl

theorem getTimeo_rcv (x : Socket) : getTimeo x SO_RCVTIMEO = x.rcvTimeo := rfl

theorem getTimeo_snd (x : Socket) : getTimeo x SO_SNDTIMEO = x.sndTimeo := rfl

theorem timeout_rcv_congr (x y : Socket) (h : x.rcvTimeo = y.rcvTimeo) :
    timeout x SO_RCVTIMEO = timeout y SO_RCVTIMEO := by
  unfold timeout
  rw [getTimeo_rcv, getTimeo_rcv, h]

theorem timeout_snd_congr (x y : Socket) (h : x.sndTimeo = y.sndTimeo) :
    timeout x SO_SNDTIMEO = timeout y SO_SNDTIMEO := by
  unfold timeout
  rw [getTimeo_snd, getTimeo_snd, h]

theorem connect_ok_fields (env : OsEnv) (addr : IpAddr) (s : Socket)
    (h : Socket.connect env addr = .ok s) :
    s.family = addr.family ∧ s.dest = addr ∧ s.proto = icmpProto addr.family := by
  unfold Socket.connect at h
  by_cases h1 : env.supports addr.family = true
  · by_cases h2 : env.rawAllowed = true
    · simp only [h1, h2, if_true] at h
      injection h with h3
      subst h3
      exact ⟨rfl, rfl, rfl⟩
    · simp only [h1, h2, if_true, if_false, Bool.not_eq_true] at h
      exact (Except.noConfusion h)
  · simp only [h1, if_false, Bool.not_eq_true] at h
    exact (Except.noConfusion h)

theorem applyOp_family_dest (s : IcmpSocket) (op : Op) :
    (s.applyOp op).inner.family = s.inner.family ∧
    (s.applyOp op).inner.dest = s.inner.dest := by
  cases op with
  | setReadTimeout dur =>
    exact ⟨set_timeout_family s.inner dur SO_RCVTIMEO,
      set_timeout_dest s.inner dur SO_RCVTIMEO⟩
  | setWriteTimeout dur =>
    exact ⟨set_timeout_family s.inner dur SO_SNDTIMEO,
      set_timeout_dest s.inner dur SO_SNDTIMEO⟩
  | setTtl t =>
    show (Socket.set_ttl s.inner t).1.family = _ ∧ (Socket.set_ttl s.inner t).1.dest = _
    unfold Socket.set_ttl
    split_ifs <;> exact ⟨rfl, rfl⟩
  | _ => exact ⟨rfl, rfl⟩

theorem foldl_applyOp_family_dest (ops : List Op) (s : IcmpSocket) :
    (ops.foldl IcmpSocket.applyOp s).inner.family = s.inner.family ∧
    (ops.foldl IcmpSocket.applyOp s).inner.dest = s.inner.dest := by
  induction ops generalizing s with
  | nil => exact ⟨rfl, rfl⟩
  | cons op rest ih =>
    simp only [List.foldl_cons]
    exact ⟨(ih (s.applyOp op)).1.trans (applyOp_family_dest s op).1,
      (ih (s.applyOp op)).2.trans (applyOp_family_dest s op).2⟩

/-! ### Concrete sample values, used to instantiate universally
quantified statements -/

/-- An environment supporting both families with the raw-socket
capability granted. -/
def exEnv : OsEnv := ⟨true, true, true⟩

/-- The IPv4 loopback address 127.0.0.1 as a raw integer. -/
def exAddr : IpAddr := .v4 2130706433

/-- The platform-socket state produced by a successful connect to
`exAddr`. -/
def exSock : Socket :=
  { family := .v4
    dest := exAddr
    proto := 1
    rcvTimeo := ⟨0, 0⟩
    sndTimeo := ⟨0, 0⟩
    ttlVal := 64
    broadcastVal := false
    qosVal := 0 }

/-- A facade socket wrapping `exSock`. -/
def exIcmp : IcmpSocket := ⟨exSock⟩

/-- A sample incoming datagram. -/
def exPkt : Packet := ⟨[1, 2, 3], 7⟩

/-- A sample list of public operations. -/
def exOps : List Op :=
  [.setTtl 10, .setBroadcast true, .setReadTimeout (some ⟨1, 0⟩), .getQos]

/-! ### The claims -/

/-- C1: Every public operation of the facade (`connect`, `send`, `recv`,
`recv_from`, the timeout setters/getters, TTL, broadcast and QoS
setters/getters) returns exactly the result of the corresponding platform
primitive (or timeout-configuration routine) applied to the same
arguments, adding no state, buffering or retry logic of its own. -/
theorem c1_facade_pure_pass_through (env : OsEnv) (addr : IpAddr)
    (s : IcmpSocket) (net : Option Packet) (buflen : Nat) (buf : List Nat)
    (dur : Option Duration) (t : Nat) (b : Bool) (q : Fin 256) :
    IcmpSocket.connect env addr
        = (Socket.connect env addr).map (fun i => { inner := i }) ∧
    s.recv net buflen = s.inner.recv net buflen ∧
    s.recv_from net buflen = s.inner.recv_from net buflen ∧
    s.send buf = s.inner.send buf ∧
    (s.set_read_timeout dur).1.inner = (set_timeout s.inner dur SO_RCVTIMEO).1 ∧
    (s.set_read_timeout dur).2 = (set_timeout s.inner dur SO_RCVTIMEO).2 ∧
    (s.set_write_timeout dur).1.inner = (set_timeout s.inner dur SO_SNDTIMEO).1 ∧
    (s.set_write_timeout dur).2 = (set_timeout s.inner dur SO_SNDTIMEO).2 ∧
    s.read_timeout = timeout s.inner SO_RCVTIMEO ∧
    s.write_timeout = timeout s.inner SO_SNDTIMEO ∧
    (s.set_ttl t).1.inner = (Socket.set_ttl s.inner t).1 ∧
    (s.set_ttl t).2 = (Socket.set_ttl s.inner t).2 ∧
    s.ttl = s.inner.ttl ∧
    (s.set_broadcast b).1.inner = (Socket.set_broadcast s.inner b).1 ∧
    (s.set_broadcast b).2 = (Socket.set_broadcast s.inner b).2 ∧
    s.broadcast = s.inner.broadcast ∧
    (s.set_qos q).1.inner = (Socket.set_qos s.inner q).1 ∧
    (s.set_qos q).2 = (Socket.set_qos s.inner q).2 ∧
    s.qos = s.inner.qos :=
  ⟨rfl, rfl, rfl, rfl, rfl, rfl, rfl, rfl, rfl, rfl, rfl, rfl, rfl, rfl,
    rfl, rfl, rfl, rfl, rfl⟩

/-- C2: For either direction, setting a timeout of `some` zero duration
fails with an invalid-argument error and leaves the socket state — in
particular the previously configured timeout for that direction —
unchanged; the zero duration is never converted to "no timeout". -/
theorem c2_zero_timeout_rejected (s : IcmpSocket) (d : Duration)
    (h : d.secs = 0 ∧ d.nanos = 0) :
    (s.set_read_timeout (some d)).2 = .error .invalidInput ∧
    (s.set_read_timeout (some d)).1 = s ∧
    (s.set_write_timeout (some d)).2 = .error .invalidInput ∧
    (s.set_write_timeout (some d)).1 = s := by
  simp [IcmpSocket.set_read_timeout, IcmpSocket.set_write_timeout,
    IcmpSocket.as_inner, set_timeout, if_pos h]

theorem c2_zero_timeout_rejected_witness :
    ((Duration.mk 0 0).secs = 0 ∧ (Duration.mk 0 0).nanos = 0) ∧
    ((exIcmp.set_read_timeout (some ⟨0, 0⟩)).2 = .error .invalidInput ∧
     (exIcmp.set_read_timeout (some ⟨0, 0⟩)).1 = exIcmp ∧
     (exIcmp.set_write_timeout (some ⟨0, 0⟩)).2 = .error .invalidInput ∧
     (exIcmp.set_write_timeout (some ⟨0, 0⟩)).1 = exIcmp) :=
  ⟨⟨rfl, rfl⟩, c2_zero_timeout_rejected exIcmp ⟨0, 0⟩ ⟨rfl, rfl⟩⟩

/-- C3: For every duration `d > 0`, setting the read timeout to `some d`
succeeds, and reading it back returns `some` of the duration that equals
`d` rounded to the OS's minimum representable timeout unit (one
microsecond). -/
theorem c3_read_timeout_round_trip (s : IcmpSocket) (d : Duration)
    (h : ¬(d.secs = 0 ∧ d.nanos = 0)) :
    (s.set_read_timeout (some d)).2 = .ok () ∧
    ((s.set_read_timeout (some d)).1).read_timeout
      = .ok (some (roundToMicros d)) := by
  have hset : s.set_read_timeout (some d)
      = ({ inner := setTimeo s.inner SO_RCVTIMEO (durToTimeval d) },
          Except.ok ()) := by
    simp only [IcmpSocket.set_read_timeout, IcmpSocket.as_inner,
      set_timeout, if_neg h]
  refine ⟨by rw [hset], ?_⟩
  rw [hset]
  show timeout (setTimeo s.inner SO_RCVTIMEO (durToTimeval d)) SO_RCVTIMEO = _
  unfold timeout
  rw [show getTimeo (setTimeo s.inner SO_RCVTIMEO (durToTimeval d)) SO_RCVTIMEO
      = durToTimeval d from rfl]
  by_cases hz : d.secs = 0 ∧ d.nanos / 1000 = 0
  · have hn : d.nanos < 1000 := by
      have := hz.2
      omega
    have e1 : durToTimeval d = ⟨0, 1⟩ := by
      show (if d.secs = 0 ∧ d.nanos / 1000 = 0 then (⟨0, 1⟩ : Timeval)
          else ⟨d.secs, d.nanos / 1000⟩) = ⟨0, 1⟩
      rw [if_pos hz]
    have e2 : roundToMicros d = ⟨0, 1000⟩ := by
      unfold roundToMicros
      rw [if_pos ⟨hz.1, hn⟩]
    rw [e1, e2]
    norm_num
  · have hz2 : ¬(d.secs = 0 ∧ d.nanos < 1000) := by
      intro hc
      exact hz ⟨hc.1, by omega⟩
    have e1 : durToTimeval d = ⟨d.secs, d.nanos / 1000⟩ := by
      show (if d.secs = 0 ∧ d.nanos / 1000 = 0 then (⟨0, 1⟩ : Timeval)
          else ⟨d.secs, d.nanos / 1000⟩) = ⟨d.secs, d.nanos / 1000⟩
      rw [if_neg hz]
    have e2 : roundToMicros d = ⟨d.secs, d.nanos / 1000 * 1000⟩ := by
      unfold roundToMicros
      rw [if_neg hz2]
    rw [e1, e2]
    show (if d.secs = 0 ∧ d.nanos / 1000 = 0 then
          (Except.ok none : Except IoErrorKind (Option Duration))
        else Except.ok (some ⟨d.secs, d.nanos / 1000 * 1000⟩)) = _
    rw [if_neg hz]

theorem c3_read_timeout_round_trip_witness :
    (¬((Duration.mk 2 1500).secs = 0 ∧ (Duration.mk 2 1500).nanos = 0)) ∧
    ((exIcmp.set_read_timeout (some ⟨2, 1500⟩)).2 = .ok () ∧
     ((exIcmp.set_read_timeout (some ⟨2, 1500⟩)).1).read_timeout
       = .ok (some (roundToMicros ⟨2, 1500⟩))) :=
  ⟨by decide, c3_read_timeout_round_trip exIcmp ⟨2, 1500⟩ (by decide)⟩

/-- C4: Setting the read timeout to `none` succeeds and a subsequent
`read_timeout` returns `none`; moreover the getter interprets any
OS-reported all-zero timeout as `none`, matching the setter's encoding of
"block indefinitely". -/
theorem c4_none_timeout_round_trip (s : IcmpSocket) (x : Socket)
    (hx : x.rcvTimeo = ⟨0, 0⟩) :
    (s.set_read_timeout none).2 = .ok () ∧
    ((s.set_read_timeout none).1).read_timeout = .ok none ∧
    timeout x SO_RCVTIMEO = .ok none := by
  refine ⟨rfl, rfl, ?_⟩
  show (if x.rcvTimeo.sec = 0 ∧ x.rcvTimeo.usec = 0 then
      (Except.ok none : Except IoErrorKind (Option Duration))
    else Except.ok (some ⟨x.rcvTimeo.sec, x.rcvTimeo.usec * 1000⟩)) = .ok none
  rw [hx]
  rfl

theorem c4_none_timeout_round_trip_witness :
    (exSock.rcvTimeo = ⟨0, 0⟩) ∧
    ((exIcmp.set_read_timeout none).2 = .ok () ∧
     ((exIcmp.set_read_timeout none).1).read_timeout = .ok none ∧
     timeout exSock SO_RCVTIMEO = .ok none) :=
  ⟨rfl, c4_none_timeout_round_trip exIcmp exSock rfl⟩

/-- C5: `connect` selects the ICMPv4 protocol number for IPv4 addresses
and the ICMPv6 protocol number for IPv6 addresses; it fails with a
permission error when the raw-socket capability is missing, with an
unsupported-family error when the address family is not supported, and a
successful connect always carries the protocol matching the address
family — never the wrong one. -/
theorem c5_connect_protocol_selection (env : OsEnv) (addr : IpAddr)
    (a4 a6 : Nat) :
    (env.supports addr.family = true → env.rawAllowed = false →
      Socket.connect env addr = .error .permissionDenied) ∧
    (env.supports addr.family = false →
      Socket.connect env addr = .error .unsupportedFamily) ∧
    (∀ s, Socket.connect env addr = .ok s → s.proto = icmpProto addr.family) ∧
    (∀ s, Socket.connect env (.v4 a4) = .ok s → s.proto = IPPROTO_ICMP) ∧
    (∀ s, Socket.connect env (.v6 a6) = .ok s → s.proto = IPPROTO_ICMPV6) := by
  refine ⟨?_, ?_, ?_, ?_, ?_⟩
  · intro h1 h2
    simp [Socket.connect, h1, h2]
  · intro h1
    simp [Socket.connect, h1]
  · intro s hs
    exact (connect_ok_fields env addr s hs).2.2
  · intro s hs
    exact (connect_ok_fields env (.v4 a4) s hs).2.2
  · intro s hs
    exact (connect_ok_fields env (.v6 a6) s hs).2.2

theorem c5_connect_protocol_selection_witness :
    (OsEnv.supports ⟨false, true, true⟩ exAddr.family = true) ∧
    (OsEnv.rawAllowed ⟨false, true, true⟩ = false) ∧
    (Socket.connect ⟨false, true, true⟩ exAddr = .error .permissionDenied) ∧
    (OsEnv.supports ⟨true, false, true⟩ exAddr.family = false) ∧
    (Socket.connect ⟨true, false, true⟩ exAddr = .error .unsupportedFamily) ∧
    (Socket.connect exEnv exAddr = .ok exSock) ∧
    (exSock.proto = icmpProto exAddr.family) :=
  ⟨rfl, rfl,
    (c5_connect_protocol_selection ⟨false, true, true⟩ exAddr 0 0).1 rfl rfl,
    rfl,
    (c5_connect_protocol_selection ⟨true, false, true⟩ exAddr 0 0).2.1 rfl,
    rfl,
    (c5_connect_protocol_selection exEnv exAddr 0 0).2.2.1 exSock rfl⟩

/-- C6: For every TTL value `t ≤ 255`, `set_ttl t` succeeds and a
subsequent `ttl` returns `t` (the model has no clamping, so the
round-trip is exact on the whole accepted range). -/
theorem c6_ttl_round_trip (s : IcmpSocket) (t : Nat) (h : t ≤ 255) :
    (s.set_ttl t).2 = .ok () ∧ ((s.set_ttl t).1).ttl = .ok t := by
  have e : Socket.set_ttl s.inner t = ({ s.inner with ttlVal := t }, .ok ()) := by
    unfold Socket.set_ttl
    rw [if_pos h]
  constructor
  · show (Socket.set_ttl s.inner t).2 = .ok ()
    rw [e]
  · show Except.ok ((Socket.set_ttl s.inner t).1.ttlVal) = Except.ok t
    rw [e]

theorem c6_ttl_round_trip_witness :
    ((128 : Nat) ≤ 255) ∧
    ((exIcmp.set_ttl 128).2 = .ok () ∧ ((exIcmp.set_ttl 128).1).ttl = .ok 128) :=
  ⟨by norm_num, c6_ttl_round_trip exIcmp 128 (by norm_num)⟩

/-- C7: For each boolean `b`, `set_broadcast b` succeeds and a subsequent
`broadcast` returns `b`. -/
theorem c7_broadcast_round_trip (s : IcmpSocket) (b : Bool) :
    (s.set_broadcast b).2 = .ok () ∧ ((s.set_broadcast b).1).broadcast = .ok b :=
  ⟨rfl, rfl⟩

/-- C8: The address family and destination are fixed at connect time: no
sequence of public operations (there is no reconnect or rebind among
them) changes them, and `recv_from` on the resulting socket decodes
source addresses according to the family chosen at connect time. -/
theorem c8_family_dest_immutable (env : OsEnv) (addr : IpAddr)
    (s0 : IcmpSocket) (ops : List Op)
    (h : IcmpSocket.connect env addr = .ok s0) :
    (ops.foldl IcmpSocket.applyOp s0).inner.family = addr.family ∧
    (ops.foldl IcmpSocket.applyOp s0).inner.dest = addr ∧
    ∀ (p : Packet) (buflen : Nat),
      (ops.foldl IcmpSocket.applyOp s0).recv_from (some p) buflen
        = .ok (min p.bytes.length buflen, decodeAddr addr.family p.src) := by
  have hinner : Socket.connect env addr = .ok s0.inner := by
    unfold IcmpSocket.connect at h
    cases hc : Socket.connect env addr with
    | ok v =>
      rw [hc] at h
      simp only [Except.map] at h
      injection h with h2
      rw [← h2]
    | error e =>
      rw [hc] at h
      simp only [Except.map] at h
      exact Except.noConfusion h
  obtain ⟨hf, hd, _⟩ := connect_ok_fields env addr s0.inner hinner
  obtain ⟨pf, pd⟩ := foldl_applyOp_family_dest ops s0
  refine ⟨pf.trans hf, pd.trans hd, ?_⟩
  intro p buflen
  show Except.ok (min p.bytes.length buflen,
      decodeAddr (ops.foldl IcmpSocket.applyOp s0).inner.family p.src)
    = Except.ok (min p.bytes.length buflen, decodeAddr addr.family p.src)
  rw [pf.trans hf]

theorem c8_family_dest_immutable_witness :
    (IcmpSocket.connect exEnv exAddr = .ok exIcmp) ∧
    ((exOps.foldl IcmpSocket.applyOp exIcmp).inner.family = exAddr.family ∧
     (exOps.foldl IcmpSocket.applyOp exIcmp).inner.dest = exAddr ∧
     (exOps.foldl IcmpSocket.applyOp exIcmp).recv_from (some exPkt) 8
       = .ok (min exPkt.bytes.length 8, decodeAddr exAddr.family exPkt.src)) :=
  ⟨rfl,
    (c8_family_dest_immutable exEnv exAddr exIcmp exOps rfl).1,
    (c8_family_dest_immutable exEnv exAddr exIcmp exOps rfl).2.1,
    (c8_family_dest_immutable exEnv exAddr exIcmp exOps rfl).2.2 exPkt 8⟩

/-- C9: Read and write timeouts are independent: the read setter passes
`SO_RCVTIMEO` and the write setter the distinct `SO_SNDTIMEO`, so setting
one direction's timeout leaves the other direction's stored timeval and
getter result unchanged. -/
theorem c9_timeout_directions_independent (s : IcmpSocket)
    (dur : Option Duration) :
    SO_RCVTIMEO ≠ SO_SNDTIMEO ∧
    ((s.set_read_timeout dur).1).inner.sndTimeo = s.inner.sndTimeo ∧
    ((s.set_read_timeout dur).1).write_timeout = s.write_timeout ∧
    ((s.set_write_timeout dur).1).inner.rcvTimeo = s.inner.rcvTimeo ∧
    ((s.set_write_timeout dur).1).read_timeout = s.read_timeout := by
  refine ⟨by decide, set_timeout_rcv_sndTimeo s.inner dur, ?_,
    set_timeout_snd_rcvTimeo s.inner dur, ?_⟩
  · exact timeout_snd_congr _ _ (set_timeout_rcv_sndTimeo s.inner dur)
  · exact timeout_rcv_congr _ _ (set_timeout_snd_rcvTimeo s.inner dur)

/-- C10: The QoS interface is range-safe by construction — `set_qos`
takes and `qos` returns an 8-bit value, so everything crossing that
interface lies in 0–255 — while `set_ttl` takes a full 32-bit integer, so
a TTL above 255 can be passed through to the OS-level option (where it
fails, leaving the socket unchanged). -/
theorem c10_qos_range_safe_ttl_passthrough (s : IcmpSocket) (q v : Fin 256)
    (hv : s.qos = .ok v) :
    v.val ≤ 255 ∧
    q.val ≤ 255 ∧
    ((s.set_qos q).1).inner.qosVal.val ≤ 255 ∧
    (s.set_ttl 256).2 = .error .invalidInput ∧
    (s.set_ttl 256).1 = s := by
  refine ⟨Nat.le_of_lt_succ v.isLt, Nat.le_of_lt_succ q.isLt,
    Nat.le_of_lt_succ (Fin.isLt _), ?_, ?_⟩
  · show (Socket.set_ttl s.inner 256).2 = _
    unfold Socket.set_ttl
    rw [if_neg (by norm_num)]
  · show ({ inner := (Socket.set_ttl s.inner 256).1 } : IcmpSocket) = s
    unfold Socket.set_ttl
    rw [if_neg (by norm_num)]

theorem c10_qos_range_safe_ttl_passthrough_witness :
    (exIcmp.qos = .ok 0) ∧
    ((0 : Fin 256).val ≤ 255 ∧ (3 : Fin 256).val ≤ 255 ∧
     ((exIcmp.set_qos 3).1).inner.qosVal.val ≤ 255 ∧
     (exIcmp.set_ttl 256).2 = .error .invalidInput ∧
     (exIcmp.set_ttl 256).1 = exIcmp) :=
  ⟨rfl, c10_qos_range_safe_ttl_passthrough exIcmp 3 0 rfl⟩

end Icmp
